import Mathlib

/-! The upload write path of `web/files/file.go`.

A shallow embedding of `FileDoc`, `FileDoc.ToJSONApi`, `CreateFileAndUpload` and
`copyOnFsAndCheckIntegrity`, followed by the properties established about them.

Conventions of the embedding.

* A Go `[]byte` is a `List Nat` whose entries are byte values; `crypto/md5` is the
  RFC 1321 function `md5Sum`, which reads every entry modulo 256.
* A Go `string` is a Lean `String`.  The only string indexing in the embedded code
  splits at the ASCII byte `/`, where byte positions and character positions agree.
* The two stores and the log of collaborator calls are an explicit `World` that every
  effectful step takes and returns.
* What a collaborator answers (success, or the error it fails with) is not decided by
  the code under study.  It is supplied by `Env` for the forward steps and by `Cleanup`
  for the two compensating calls, and the theorems quantify over them.
-/

namespace Files

/-! ## Bytes and MD5 -/

/-- A Go byte slice. -/
abbrev Bytes := List Nat

/-- Per-round left-rotation amounts of MD5. -/
def md5Shifts : List Nat :=
  [7, 12, 17, 22, 7, 12, 17, 22, 7, 12, 17, 22, 7, 12, 17, 22,
   5, 9, 14, 20, 5, 9, 14, 20, 5, 9, 14, 20, 5, 9, 14, 20,
   4, 11, 16, 23, 4, 11, 16, 23, 4, 11, 16, 23, 4, 11, 16, 23,
   6, 10, 15, 21, 6, 10, 15, 21, 6, 10, 15, 21, 6, 10, 15, 21]

/-- Additive constants of MD5, the integer parts of `2^32 * |sin (i + 1)|`. -/
def md5Table : List Nat :=
  [0xd76aa478, 0xe8c7b756, 0x242070db, 0xc1bdceee, 0xf57c0faf, 0x4787c62a, 0xa8304613, 0xfd469501,
   0x698098d8, 0x8b44f7af, 0xffff5bb1, 0x895cd7be, 0x6b901122, 0xfd987193, 0xa679438e, 0x49b40821,
   0xf61e2562, 0xc040b340, 0x265e5a51, 0xe9b6c7aa, 0xd62f105d, 0x2441453, 0xd8a1e681, 0xe7d3fbc8,
   0x21e1cde6, 0xc33707d6, 0xf4d50d87, 0x455a14ed, 0xa9e3e905, 0xfcefa3f8, 0x676f02d9, 0x8d2a4c8a,
   0xfffa3942, 0x8771f681, 0x6d9d6122, 0xfde5380c, 0xa4beea44, 0x4bdecfa9, 0xf6bb4b60, 0xbebfbc70,
   0x289b7ec6, 0xeaa127fa, 0xd4ef3085, 0x4881d05, 0xd9d4d039, 0xe6db99e5, 0x1fa27cf8, 0xc4ac5665,
   0xf4292244, 0x432aff97, 0xab9423a7, 0xfc93a039, 0x655b59c3, 0x8f0ccc92, 0xffeff47d, 0x85845dd1,
   0x6fa87e4f, 0xfe2ce6e0, 0xa3014314, 0x4e0811a1, 0xf7537e82, 0xbd3af235, 0x2ad7d2bb, 0xeb86d391]

/-- The `n` low bytes of `x`, least significant first. -/
def leBytes (n : Nat) (x : Nat) : Bytes :=
  (List.range n).map (fun i => (x >>> (8 * i)) % 256)

/-- The number whose little-endian bytes are `bs`. -/
def leWord (bs : Bytes) : Nat :=
  bs.foldr (fun b acc => b % 256 + 256 * acc) 0

/-- Rotation of a 32-bit word to the left by `c` bits. -/
def rotl32 (x c : Nat) : Nat :=
  ((x <<< c) ||| (x >>> (32 - c))) % 2 ^ 32

/-- Bitwise complement of a 32-bit word. -/
def not32 (x : Nat) : Nat := x ^^^ 0xffffffff

/-- MD5 padding: a `0x80` byte, zeros up to 56 modulo 64, then the bit length on 8 bytes. -/
def md5Pad (msg : Bytes) : Bytes :=
  msg ++ [0x80] ++ List.replicate ((119 - msg.length % 64) % 64) 0
    ++ leBytes 8 ((8 * msg.length) % 2 ^ 64)

/-- The four 32-bit chaining words of MD5. -/
structure MD5State where
  a : Nat
  b : Nat
  c : Nat
  d : Nat
  deriving DecidableEq, Repr

/-- One of the 64 operations of the MD5 compression function on the 64-byte block `blk`. -/
def md5Step (blk : Bytes) (s : MD5State) (i : Nat) : MD5State :=
  let f :=
    if i < 16 then (s.b &&& s.c) ||| (not32 s.b &&& s.d)
    else if i < 32 then (s.d &&& s.b) ||| (not32 s.d &&& s.c)
    else if i < 48 then s.b ^^^ s.c ^^^ s.d
    else s.c ^^^ (s.b ||| not32 s.d)
  let g :=
    if i < 16 then i
    else if i < 32 then (5 * i + 1) % 16
    else if i < 48 then (3 * i + 5) % 16
    else (7 * i) % 16
  let w := leWord ((blk.drop (4 * g)).take 4)
  let x := (f + s.a + md5Table.getD i 0 + w) % 2 ^ 32
  { a := s.d, b := (s.b + rotl32 x (md5Shifts.getD i 0)) % 2 ^ 32, c := s.b, d := s.c }

/-- The MD5 compression function. -/
def md5Block (s : MD5State) (blk : Bytes) : MD5State :=
  let t := (List.range 64).foldl (md5Step blk) s
  { a := (s.a + t.a) % 2 ^ 32, b := (s.b + t.b) % 2 ^ 32,
    c := (s.c + t.c) % 2 ^ 32, d := (s.d + t.d) % 2 ^ 32 }

/-- Initial chaining value of MD5. -/
def md5Init : MD5State :=
  { a := 0x67452301, b := 0xefcdab89, c := 0x98badcfe, d := 0x10325476 }

/-- The digest `md5.New()` holds after being fed `msg`, as returned by `Sum(nil)`. -/
def md5Sum (msg : Bytes) : Bytes :=
  let p := md5Pad msg
  let s := (List.range (p.length / 64)).foldl
    (fun s k => md5Block s ((p.drop (64 * k)).take 64)) md5Init
  leBytes 4 s.a ++ leBytes 4 s.b ++ leBytes 4 s.c ++ leBytes 4 s.d

/-! ## Data model -/

/-- The Go type `DocType`, a string. -/
abbrev DocType := String

/-- Modelled from the spec: the constant `FileDocType` is declared outside the sources at
hand; the spec calls it the "file" kind, as opposed to for instance "folder". -/
def FileDocType : DocType := "file"

/-- Error values.  `errDocTypeInvalid` and `errInvalidHash` are the two package
sentinels (declared outside the sources at hand and taken to be plain errors, not
`*couchdb.Error`), `couch` is a `*couchdb.Error`, and `other` is any error of another
dynamic type (content store, stream, path allocation, serialisation). -/
inductive Error where
  | errDocTypeInvalid
  | errInvalidHash
  | couch (reason : String)
  | other (msg : String)
  deriving DecidableEq, Repr

/-- The type assertion `_, isCouchErr := err.(*couchdb.Error)`. -/
def Error.isCouchErr : Error → Bool
  | .couch _ => true
  | _ => false

/-- The struct `fileAttributes`; times are numbers of ticks. -/
structure fileAttributes where
  Name : String
  CreatedAt : Nat
  UpdatedAt : Nat
  Size : Int
  Tags : List String
  MD5Sum : Bytes
  Executable : Bool
  Class : String
  Mime : String
  deriving DecidableEq, Repr

/-- The struct `FileDoc`; the pointer field `Attrs` is an option. -/
structure FileDoc where
  QID : String
  FRev : String
  Attrs : Option fileAttributes
  FolderID : String
  Path : String
  deriving DecidableEq, Repr

/-- The fields of `DocMetadata` that the upload reads (the struct is declared outside
the sources at hand). -/
structure DocMetadata where
  /-- the field `Type`, a reserved word here -/
  Type_ : DocType
  Name : String
  FolderID : String
  Tags : List String
  Executable : Bool
  GivenMD5 : Bytes
  deriving DecidableEq, Repr

namespace FileDoc

/-- The method `ID`: the qualified identifier. -/
def ID (f : FileDoc) : String := f.QID

/-- The method `Rev`: the revision. -/
def Rev (f : FileDoc) : String := f.FRev

/-- The method `DocType`: the file document type. -/
def DocType (_f : FileDoc) : String := FileDocType

/-- The method `SetID`: changes the qualified identifier. -/
def SetID (f : FileDoc) (id : String) : FileDoc := { f with QID := id }

/-- The method `SetRev`: changes the revision. -/
def SetRev (f : FileDoc) (rev : String) : FileDoc := { f with FRev := rev }

end FileDoc

/-! ## `ToJSONApi` -/

/-- Search of `strings.Index`: the position of the first occurrence of `sep` in `s`
counted from `k`, or `-1`. -/
def indexFrom (sep : List Char) : List Char → Nat → Int
  | [], k => if sep = [] then (k : Int) else -1
  | c :: cs, k => if sep.isPrefixOf (c :: cs) then (k : Int) else indexFrom sep cs (k + 1)

/-- The library function `strings.Index(s, sep)`. -/
def stringsIndex (s sep : String) : Int := indexFrom sep.data s.data 0

/-- The slice expression `s[i:]`, which panics (`none`) unless `0 ≤ i ≤ len(s)`. -/
def sliceFrom (s : String) (i : Int) : Option String :=
  if 0 ≤ i ∧ i ≤ (s.data.length : Int) then some (String.mk (s.data.drop i.toNat)) else none

/-- The map `data` that `ToJSONApi` hands to `json.Marshal`. -/
structure JSONApiData where
  id : String
  type : String
  rev : String
  attributes : Option fileAttributes
  deriving DecidableEq, Repr

/-- The method `ToJSONApi`, up to the final `json.Marshal`: the value that gets serialised, or
`none` when the slice expression panics. -/
def FileDoc.ToJSONApi (f : FileDoc) : Option JSONApiData :=
  let qid := f.QID
  match sliceFrom qid (stringsIndex qid "/" + 1) with
  | none => none
  | some id => some { id := id, type := f.DocType, rev := f.Rev, attributes := f.Attrs }

/-! ## The two stores and the collaborators -/

/-- A call made to a collaborator. -/
inductive Call where
  | createNewFilePath
  | fsCreate (pth : String)
  | fsRemove (pth : String)
  | createDoc (doc : FileDoc)
  | deleteDoc (doc : FileDoc)
  deriving DecidableEq, Repr

/-- The content store (`afero.Fs`) as path-content pairs, the documents of the database
selected by the database name, and the calls made so far. -/
structure World where
  fs : List (String × Bytes)
  db : List FileDoc
  calls : List Call
  deriving DecidableEq, Repr

/-- Appends a call to the log. -/
def World.record (w : World) (c : Call) : World := { w with calls := w.calls ++ [c] }

/-- The bytes stored at `pth`, if an object is there. -/
def fsLookup (fs : List (String × Bytes)) (pth : String) : Option Bytes :=
  (fs.find? (fun e => e.1 = pth)).map (fun e => e.2)

/-- The store without any object at `pth`. -/
def fsErase (fs : List (String × Bytes)) (pth : String) : List (String × Bytes) :=
  fs.filter (fun e => e.1 ≠ pth)

/-- The store where `pth` holds exactly `bs`. -/
def fsWrite (fs : List (String × Bytes)) (pth : String) (bs : Bytes) : List (String × Bytes) :=
  (pth, bs) :: fsErase fs pth

/-- What the collaborators answer on the forward path of one upload. -/
structure Env where
  /-- the value of `time.Now()` -/
  now : Nat
  /-- answer of `createNewFilePath`: the allocated path, or its error -/
  newFilePath : Except Error String
  /-- answer of `fs.Create`: `none` when the file is opened -/
  fsCreate : Option Error
  /-- answer of `io.Copy`: `none` when the whole body is copied, else the number of bytes that
  reached the file and the read or write error -/
  ioCopy : Option (Nat × Error)
  /-- answer of `couchdb.CreateDoc`: the identifier and revision assigned, or its error -/
  couchCreateDoc : Except Error (String × String)

/-- What the collaborators answer to the two compensating calls. -/
structure Cleanup where
  /-- answer of `fs.Remove`: `none` when the object is removed -/
  fsRemove : Option Error
  /-- answer of `couchdb.DeleteDoc`: `none` when the record is deleted -/
  couchDeleteDoc : Option Error

/-- Modelled from the spec: `createNewFilePath` is not in the sources at hand; the Path
Allocator returns a storage path or fails, with no observable side effect. -/
def createNewFilePath (env : Env) (w : World) : Except Error String × World :=
  (env.newFilePath, w.record .createNewFilePath)

/-- Modelled from the spec: `couchdb.CreateDoc` is not in the sources at hand; on
success the record acquires an identifier and a revision token and is persisted. -/
def CreateDoc (env : Env) (doc : FileDoc) (w : World) : Except Error FileDoc × World :=
  let w1 := w.record (.createDoc doc)
  match env.couchCreateDoc with
  | .error e => (.error e, w1)
  | .ok (id, rev) =>
    let d := (doc.SetID id).SetRev rev
    (.ok d, { w1 with db := d :: w1.db })

/-- Modelled from the spec: `couchdb.DeleteDoc` is not in the sources at hand; on
success the records carrying the identifier of `doc` are gone. -/
def DeleteDoc (cl : Cleanup) (doc : FileDoc) (w : World) : World :=
  let w1 := w.record (.deleteDoc doc)
  match cl.couchDeleteDoc with
  | some _ => w1
  | none => { w1 with db := w1.db.filter (fun d => d.ID ≠ doc.ID) }

/-- Modelled from the spec: `fs.Remove` of the content store; on success no object is
left at `pth`. -/
def fsRemove (cl : Cleanup) (pth : String) (w : World) : World :=
  let w1 := w.record (.fsRemove pth)
  match cl.fsRemove with
  | some _ => w1
  | none => { w1 with fs := fsErase w1.fs pth }

/-! ## `copyOnFsAndCheckIntegrity` and `CreateFileAndUpload` -/

/-- The function `copyOnFsAndCheckIntegrity`: opens `pth` with `fs.Create`, copies the
body `r` into it through the MD5 tee, then compares `m.GivenMD5` with the computed
digest by `bytes.Equal`.  The byte count of `io.Copy` is dropped, as in the source. -/
def copyOnFsAndCheckIntegrity (m : DocMetadata) (env : Env) (pth : String) (r : Bytes)
    (w : World) : Option Error × World :=
  let w1 := w.record (.fsCreate pth)
  match env.fsCreate with
  | some e => (some e, w1)
  | none =>
    match env.ioCopy with
    | some (n, e) => (some e, { w1 with fs := fsWrite w1.fs pth (r.take n) })
    | none =>
      let w2 := { w1 with fs := fsWrite w1.fs pth r }
      let calcMD5 := md5Sum r
      if m.GivenMD5 ≠ calcMD5 then (some .errInvalidHash, w2) else (none, w2)

/-- The deferred function of `CreateFileAndUpload`, run with a non-nil `err`. -/
def rollbackOnError (cl : Cleanup) (err : Error) (doc : FileDoc) (pth : String)
    (w : World) : World :=
  if err.isCouchErr then DeleteDoc cl doc w else fsRemove cl pth w

/-- The two results of `CreateFileAndUpload` and the world it leaves. -/
structure Outcome where
  doc : Option FileDoc
  err : Option Error
  world : World
  deriving DecidableEq, Repr

/-- The function `CreateFileAndUpload`.  The deferred function is registered after the
record is built, so it runs on the two later failure exits and not on the two earlier
ones. -/
def CreateFileAndUpload (m : DocMetadata) (env : Env) (cl : Cleanup) (body : Bytes)
    (w : World) : Outcome :=
  if m.Type_ ≠ FileDocType then
    { doc := none, err := some .errDocTypeInvalid, world := w }
  else
    match createNewFilePath env w with
    | (.error e, w0) => { doc := none, err := some e, world := w0 }
    | (.ok pth, w0) =>
      let createDate := env.now
      let attrs : fileAttributes :=
        { Name := m.Name, CreatedAt := createDate, UpdatedAt := createDate, Size := 0,
          Tags := m.Tags, MD5Sum := m.GivenMD5, Executable := m.Executable,
          Class := "document", Mime := "text/plain" }
      let doc : FileDoc :=
        { QID := "", FRev := "", Attrs := some attrs, FolderID := m.FolderID, Path := pth }
      match copyOnFsAndCheckIntegrity m env pth body w0 with
      | (some e, w1) =>
        { doc := some doc, err := some e, world := rollbackOnError cl e doc pth w1 }
      | (none, w1) =>
        match CreateDoc env doc w1 with
        | (.error e, w2) =>
          { doc := some doc, err := some e, world := rollbackOnError cl e doc pth w2 }
        | (.ok doc1, w2) => { doc := some doc1, err := none, world := w2 }

/-! ## The error of the first failing step, after the spec -/

/-- The error the spec assigns to an upload: that of the first step that fails, in the
order validation, path allocation, content write, digest check, document create; `none`
when no step fails. -/
def firstFailure (m : DocMetadata) (env : Env) (body : Bytes) : Option Error :=
  if m.Type_ ≠ FileDocType then some .errDocTypeInvalid
  else match env.newFilePath with
    | .error e => some e
    | .ok _ =>
      match env.fsCreate with
      | some e => some e
      | none =>
        match env.ioCopy with
        | some (_, e) => some e
        | none =>
          if m.GivenMD5 ≠ md5Sum body then some .errInvalidHash
          else match env.couchCreateDoc with
            | .error e => some e
            | .ok _ => none

/-! ## Concrete inputs -/

/-- The body `hello`. -/
def helloBody : Bytes := [104, 101, 108, 108, 111]

/-- The MD5 digest of `hello`. -/
def helloMD5 : Bytes := [93, 65, 64, 42, 188, 75, 42, 118, 185, 113, 157, 145, 16, 23, 197, 146]

/-- The MD5 digest of `wrong`. -/
def wrongMD5 : Bytes := [43, 218, 41, 152, 217, 176, 238, 25, 125, 161, 66, 160, 68, 127, 103, 37]

/-- An upload request for `name` with the declared digest `given`. -/
def fileRequest (name : String) (given : Bytes) : DocMetadata :=
  { Type_ := FileDocType, Name := name, FolderID := "", Tags := [], Executable := false,
    GivenMD5 := given }

/-- Collaborators that all succeed, allocating `pth` and assigning `id1` and `1-a`. -/
def allSucceed (pth : String) : Env :=
  { now := 1, newFilePath := .ok pth, fsCreate := none, ioCopy := none,
    couchCreateDoc := .ok ("files/id1", "1-a") }

/-- Compensating calls that succeed. -/
def cleanupOk : Cleanup := { fsRemove := none, couchDeleteDoc := none }

/-- Compensating calls that both fail. -/
def cleanupFails : Cleanup :=
  { fsRemove := some (.other "remove failed"), couchDeleteDoc := some (.other "delete failed") }

/-- The empty stores with no call made. -/
def emptyWorld : World := { fs := [], db := [], calls := [] }

/-- The record `CreateFileAndUpload` builds before the content is written. -/
def builtDoc (m : DocMetadata) (env : Env) (pth : String) : FileDoc :=
  { QID := "", FRev := "",
    Attrs := some
      { Name := m.Name, CreatedAt := env.now, UpdatedAt := env.now, Size := 0,
        Tags := m.Tags, MD5Sum := m.GivenMD5, Executable := m.Executable,
        Class := "document", Mime := "text/plain" },
    FolderID := m.FolderID, Path := pth }

/-- The body `wrong`. -/
def wrongBody : Bytes := [119, 114, 111, 110, 103]

/-- Collaborators where `CreateDoc` fails with a `*couchdb.Error` after everything before
it succeeded. -/
def couchFailure (pth : String) : Env :=
  { now := 1, newFilePath := .ok pth, fsCreate := none, ioCopy := none,
    couchCreateDoc := .error (.couch "conflict") }

/-- Collaborators where `CreateDoc` fails with an error that is not a `*couchdb.Error`. -/
def otherCreateDocFailure (pth : String) : Env :=
  { now := 1, newFilePath := .ok pth, fsCreate := none, ioCopy := none,
    couchCreateDoc := .error (.other "connection refused") }

/-- Collaborators where `fs.Create` refuses the path because an object is already there. -/
def createConflict (pth : String) : Env :=
  { now := 1, newFilePath := .ok pth, fsCreate := some (.other "file already exists"),
    ioCopy := none, couchCreateDoc := .ok ("files/id1", "1-a") }

/-- A content store that already holds the three bytes `old` at `pth`. -/
def occupiedWorld (pth : String) : World :=
  { fs := [(pth, [111, 108, 100])], db := [], calls := [] }

/-- Whether the call is a `couchdb.CreateDoc`. -/
def Call.isCreateDoc : Call → Bool
  | .createDoc _ => true
  | _ => false

/-- Whether the call is an `fs.Remove`. -/
def Call.isFsRemove : Call → Bool
  | .fsRemove _ => true
  | _ => false

/-- Whether the call is a `couchdb.DeleteDoc`. -/
def Call.isDeleteDoc : Call → Bool
  | .deleteDoc _ => true
  | _ => false

/-! ## Auxiliary facts -/

theorem leBytes_length (n x : Nat) : (leBytes n x).length = n := by
  simp [leBytes]

theorem md5Sum_length (msg : Bytes) : (md5Sum msg).length = 16 := by
  simp [md5Sum, leBytes_length]

theorem md5Sum_ne_nil (msg : Bytes) : md5Sum msg ≠ [] := by
  intro h
  have := md5Sum_length msg
  rw [h] at this
  simp at this

theorem nil_ne_md5Sum (msg : Bytes) : ([] : Bytes) ≠ md5Sum msg :=
  fun h => md5Sum_ne_nil msg h.symm

theorem md5Sum_helloBody : md5Sum helloBody = helloMD5 := by decide

theorem md5Sum_wrongBody : md5Sum wrongBody = wrongMD5 := by decide

theorem fsLookup_fsErase (fs : List (String × Bytes)) (pth : String) :
    fsLookup (fsErase fs pth) pth = none := by
  simp [fsLookup, fsErase, List.find?_eq_none]

theorem fsLookup_fsWrite (fs : List (String × Bytes)) (pth : String) (bs : Bytes) :
    fsLookup (fsWrite fs pth bs) pth = some bs := by
  simp [fsLookup, fsWrite]

/-! ## Properties of `CreateFileAndUpload` -/

/-- C1: an upload request whose declared kind is not the file kind is answered with
`errDocTypeInvalid` and nothing else happens: no document is returned, the content
store and the document store are the ones the call started with, and the log of
collaborator calls has not grown (no allocator, `Create`, `Remove`, `CreateDoc` or
`DeleteDoc` call). -/
theorem invalid_doc_type_no_side_effect (m : DocMetadata) (env : Env) (cl : Cleanup)
    (body : Bytes) (w : World) (h : m.Type_ ≠ FileDocType) :
    (CreateFileAndUpload m env cl body w).err = some Error.errDocTypeInvalid ∧
    (CreateFileAndUpload m env cl body w).doc = none ∧
    (CreateFileAndUpload m env cl body w).world = w ∧
    (CreateFileAndUpload m env cl body w).world.fs = w.fs ∧
    (CreateFileAndUpload m env cl body w).world.db = w.db ∧
    (CreateFileAndUpload m env cl body w).world.calls = w.calls := by
  simp [CreateFileAndUpload, h]

/-- Scenario C: a request of kind `folder`, whatever the collaborators would answer. -/
theorem invalid_doc_type_no_side_effect_witness :
    (CreateFileAndUpload { fileRequest "d" [] with Type_ := "folder" } (allSucceed "/d")
        cleanupOk helloBody emptyWorld).err = some Error.errDocTypeInvalid ∧
    (CreateFileAndUpload { fileRequest "d" [] with Type_ := "folder" } (allSucceed "/d")
        cleanupOk helloBody emptyWorld).world.calls = [] :=
  have h := invalid_doc_type_no_side_effect { fileRequest "d" [] with Type_ := "folder" }
    (allSucceed "/d") cleanupOk helloBody emptyWorld (by decide)
  ⟨h.1, h.2.2.2.2.2⟩

/-- What an upload whose declared digest differs from the computed one leaves behind,
when allocation, `Create` and the copy succeed. -/
theorem digest_mismatch_outcome (m : DocMetadata) (env : Env) (cl : Cleanup) (body : Bytes)
    (w : World) (pth : String) (hk : m.Type_ = FileDocType)
    (hp : env.newFilePath = .ok pth) (hc : env.fsCreate = none) (hcp : env.ioCopy = none)
    (hne : m.GivenMD5 ≠ md5Sum body) :
    (CreateFileAndUpload m env cl body w).err = some Error.errInvalidHash ∧
    (CreateFileAndUpload m env cl body w).world.db = w.db ∧
    (CreateFileAndUpload m env cl body w).world.calls =
      w.calls ++ [Call.createNewFilePath, Call.fsCreate pth, Call.fsRemove pth] ∧
    (cl.fsRemove = none →
      fsLookup (CreateFileAndUpload m env cl body w).world.fs pth = none) := by
  refine ⟨?_, ?_, ?_, ?_⟩
  · simp [CreateFileAndUpload, createNewFilePath, copyOnFsAndCheckIntegrity, hk, hp, hc, hcp,
      hne]
  · cases hr : cl.fsRemove <;>
      simp [CreateFileAndUpload, createNewFilePath, copyOnFsAndCheckIntegrity, rollbackOnError,
        fsRemove, World.record, Error.isCouchErr, hk, hp, hc, hcp, hr, hne]
  · cases hr : cl.fsRemove <;>
      simp [CreateFileAndUpload, createNewFilePath, copyOnFsAndCheckIntegrity, rollbackOnError,
        fsRemove, World.record, Error.isCouchErr, hk, hp, hc, hcp, hr, hne]
  · intro hr
    simp [CreateFileAndUpload, createNewFilePath, copyOnFsAndCheckIntegrity, rollbackOnError,
      fsRemove, World.record, Error.isCouchErr, hk, hp, hc, hcp, hr, hne, fsLookup_fsErase]

/-- When the digests differ and `fs.Remove` fails, the body stays at the allocated path. -/
theorem digest_mismatch_remove_fails (m : DocMetadata) (env : Env) (cl : Cleanup)
    (body : Bytes) (w : World) (pth : String) (e : Error) (hk : m.Type_ = FileDocType)
    (hp : env.newFilePath = .ok pth) (hc : env.fsCreate = none) (hcp : env.ioCopy = none)
    (hne : m.GivenMD5 ≠ md5Sum body) (hr : cl.fsRemove = some e) :
    fsLookup (CreateFileAndUpload m env cl body w).world.fs pth = some body := by
  simp [CreateFileAndUpload, createNewFilePath, copyOnFsAndCheckIntegrity, rollbackOnError,
    fsRemove, World.record, Error.isCouchErr, hk, hp, hc, hcp, hr, hne, fsLookup_fsWrite]

/-- C2, as stated, fails on Scenario A: for the request `a.txt` with an empty declared
digest and the body `hello`, all collaborators succeeding, the call does not succeed.
It returns `errInvalidHash`, nothing is left at the allocated path and no record is
persisted. -/
theorem empty_digest_scenario_fails :
    (CreateFileAndUpload (fileRequest "a.txt" []) (allSucceed "/a.txt") cleanupOk helloBody
      emptyWorld).err = some Error.errInvalidHash ∧
    (CreateFileAndUpload (fileRequest "a.txt" []) (allSucceed "/a.txt") cleanupOk helloBody
      emptyWorld).err ≠ none ∧
    fsLookup (CreateFileAndUpload (fileRequest "a.txt" []) (allSucceed "/a.txt") cleanupOk
      helloBody emptyWorld).world.fs "/a.txt" ≠ some helloBody ∧
    (CreateFileAndUpload (fileRequest "a.txt" []) (allSucceed "/a.txt") cleanupOk helloBody
      emptyWorld).world.db = [] := by
  have h := digest_mismatch_outcome (fileRequest "a.txt" []) (allSucceed "/a.txt") cleanupOk
    helloBody emptyWorld "/a.txt" rfl rfl rfl rfl (nil_ne_md5Sum helloBody)
  refine ⟨h.1, ?_, ?_, h.2.1⟩
  · rw [h.1]; simp
  · rw [h.2.2.2 rfl]; simp

/-- C2, amended: for an upload of kind file whose declared digest is empty, with path
allocation, `Create` and the copy succeeding, the digest check is not skipped.  The empty
digest is compared with the 16-byte MD5 of the body, so for every body the call returns
`errInvalidHash`, the document store is unchanged, `CreateDoc` is not called (the calls
are the allocator, `Create` and `Remove`), and when `Remove` succeeds the bytes written
at the allocated path are gone again. -/
theorem empty_digest_always_rejected (m : DocMetadata) (env : Env) (cl : Cleanup)
    (body : Bytes) (w : World) (pth : String) (hk : m.Type_ = FileDocType)
    (hd : m.GivenMD5 = []) (hp : env.newFilePath = .ok pth) (hc : env.fsCreate = none)
    (hcp : env.ioCopy = none) :
    (CreateFileAndUpload m env cl body w).err = some Error.errInvalidHash ∧
    (CreateFileAndUpload m env cl body w).world.db = w.db ∧
    (CreateFileAndUpload m env cl body w).world.calls =
      w.calls ++ [Call.createNewFilePath, Call.fsCreate pth, Call.fsRemove pth] ∧
    (cl.fsRemove = none →
      fsLookup (CreateFileAndUpload m env cl body w).world.fs pth = none) :=
  digest_mismatch_outcome m env cl body w pth hk hp hc hcp
    (by rw [hd]; exact nil_ne_md5Sum body)

/-- The amended C2 on the empty body, whose MD5 is not empty either. -/
theorem empty_digest_always_rejected_witness :
    (CreateFileAndUpload (fileRequest "e.txt" []) (allSucceed "/e.txt") cleanupOk []
      emptyWorld).err = some Error.errInvalidHash ∧
    fsLookup (CreateFileAndUpload (fileRequest "e.txt" []) (allSucceed "/e.txt") cleanupOk []
      emptyWorld).world.fs "/e.txt" = none :=
  have h := empty_digest_always_rejected (fileRequest "e.txt" []) (allSucceed "/e.txt")
    cleanupOk [] emptyWorld "/e.txt" rfl rfl rfl rfl rfl
  ⟨h.1, h.2.2.2 rfl⟩

/-- C3, as stated, fails when `fs.Remove` fails: for the request `b.txt` declaring the
MD5 of `wrong` with the body `hello`, the call returns `errInvalidHash` and calls
`fs.Remove` on the allocated path, whose result it ignores, so the object `hello` is
still at the allocated path after the call. -/
theorem wrong_digest_object_stays_when_remove_fails :
    wrongMD5 ≠ [] ∧ wrongMD5 ≠ md5Sum helloBody ∧
    (CreateFileAndUpload (fileRequest "b.txt" wrongMD5) (allSucceed "/b.txt") cleanupFails
      helloBody emptyWorld).err = some Error.errInvalidHash ∧
    (CreateFileAndUpload (fileRequest "b.txt" wrongMD5) (allSucceed "/b.txt") cleanupFails
      helloBody emptyWorld).world.calls =
        [Call.createNewFilePath, Call.fsCreate "/b.txt", Call.fsRemove "/b.txt"] ∧
    fsLookup (CreateFileAndUpload (fileRequest "b.txt" wrongMD5) (allSucceed "/b.txt")
      cleanupFails helloBody emptyWorld).world.fs "/b.txt" = some helloBody := by
  have hne : wrongMD5 ≠ md5Sum helloBody := by rw [md5Sum_helloBody]; decide
  have h := digest_mismatch_outcome (fileRequest "b.txt" wrongMD5) (allSucceed "/b.txt")
    cleanupFails helloBody emptyWorld "/b.txt" rfl rfl rfl rfl hne
  refine ⟨by decide, hne, h.1, ?_, ?_⟩
  · rw [h.2.2.1]; rfl
  · exact digest_mismatch_remove_fails (fileRequest "b.txt" wrongMD5) (allSucceed "/b.txt")
      cleanupFails helloBody emptyWorld "/b.txt" (Error.other "remove failed") rfl rfl rfl rfl
      hne rfl

/-- C3, amended: for an upload of kind file whose declared digest is non-empty and
differs from the MD5 of the body (allocation, `Create` and the copy succeeding, so that
a digest is computed over the body), the call returns `errInvalidHash`, the document
store is unchanged and `CreateDoc` is never called: the calls are exactly the allocator,
`Create` and `Remove` of the allocated path.  When that `Remove` succeeds, no object is
left at the allocated path. -/
theorem wrong_digest_rejected_and_cleaned (m : DocMetadata) (env : Env) (cl : Cleanup)
    (body : Bytes) (w : World) (pth : String) (hk : m.Type_ = FileDocType)
    (_hd : m.GivenMD5 ≠ []) (hne : m.GivenMD5 ≠ md5Sum body)
    (hp : env.newFilePath = .ok pth) (hc : env.fsCreate = none) (hcp : env.ioCopy = none) :
    (CreateFileAndUpload m env cl body w).err = some Error.errInvalidHash ∧
    (CreateFileAndUpload m env cl body w).world.db = w.db ∧
    (CreateFileAndUpload m env cl body w).world.calls.any Call.isCreateDoc =
      w.calls.any Call.isCreateDoc ∧
    (CreateFileAndUpload m env cl body w).world.calls =
      w.calls ++ [Call.createNewFilePath, Call.fsCreate pth, Call.fsRemove pth] ∧
    (cl.fsRemove = none →
      fsLookup (CreateFileAndUpload m env cl body w).world.fs pth = none) := by
  have h := digest_mismatch_outcome m env cl body w pth hk hp hc hcp hne
  refine ⟨h.1, h.2.1, ?_, h.2.2.1, h.2.2.2⟩
  rw [h.2.2.1]
  simp [Call.isCreateDoc]

/-- Scenario B: the request `b.txt` declaring the MD5 of `wrong`, with the body `hello`
and a `Remove` that succeeds. -/
theorem wrong_digest_rejected_and_cleaned_witness :
    (CreateFileAndUpload (fileRequest "b.txt" wrongMD5) (allSucceed "/b.txt") cleanupOk
      helloBody emptyWorld).err = some Error.errInvalidHash ∧
    fsLookup (CreateFileAndUpload (fileRequest "b.txt" wrongMD5) (allSucceed "/b.txt")
      cleanupOk helloBody emptyWorld).world.fs "/b.txt" = none ∧
    (CreateFileAndUpload (fileRequest "b.txt" wrongMD5) (allSucceed "/b.txt") cleanupOk
      helloBody emptyWorld).world.db = [] :=
  have h := wrong_digest_rejected_and_cleaned (fileRequest "b.txt" wrongMD5)
    (allSucceed "/b.txt") cleanupOk helloBody emptyWorld "/b.txt" rfl (by decide)
    (by rw [md5Sum_helloBody]; decide) rfl rfl rfl
  ⟨h.1, h.2.2.2.2 rfl, h.2.1⟩

/-- The outcome of an upload on which every forward step succeeds. -/
theorem success_outcome (m : DocMetadata) (env : Env) (cl : Cleanup) (body : Bytes)
    (w : World) (pth id rev : String) (hk : m.Type_ = FileDocType)
    (hp : env.newFilePath = .ok pth) (hc : env.fsCreate = none) (hcp : env.ioCopy = none)
    (he : m.GivenMD5 = md5Sum body) (hd : env.couchCreateDoc = .ok (id, rev)) :
    CreateFileAndUpload m env cl body w =
      { doc := some { builtDoc m env pth with QID := id, FRev := rev },
        err := none,
        world :=
          { fs := fsWrite w.fs pth body,
            db := { builtDoc m env pth with QID := id, FRev := rev } :: w.db,
            calls := w.calls ++
              [Call.createNewFilePath, Call.fsCreate pth, Call.createDoc (builtDoc m env pth)] } } := by
  simp [CreateFileAndUpload, createNewFilePath, copyOnFsAndCheckIntegrity, CreateDoc,
    World.record, FileDoc.SetID, FileDoc.SetRev, builtDoc, hk, hp, hc, hcp, hd, ← he]

/-- The outcome of an upload on which `CreateDoc` is the first step to fail. -/
theorem createDoc_failure_outcome (m : DocMetadata) (env : Env) (cl : Cleanup) (body : Bytes)
    (w : World) (pth : String) (e : Error) (hk : m.Type_ = FileDocType)
    (hp : env.newFilePath = .ok pth) (hc : env.fsCreate = none) (hcp : env.ioCopy = none)
    (he : m.GivenMD5 = md5Sum body) (hd : env.couchCreateDoc = .error e) :
    CreateFileAndUpload m env cl body w =
      { doc := some (builtDoc m env pth),
        err := some e,
        world := rollbackOnError cl e (builtDoc m env pth) pth
          { fs := fsWrite w.fs pth body,
            db := w.db,
            calls := w.calls ++
              [Call.createNewFilePath, Call.fsCreate pth, Call.createDoc (builtDoc m env pth)] } } := by
  simp [CreateFileAndUpload, createNewFilePath, copyOnFsAndCheckIntegrity, CreateDoc,
    World.record, builtDoc, hk, hp, hc, hcp, hd, ← he]

/-- C4: whenever `CreateFileAndUpload` returns without error, it returns a record whose
`Attrs.MD5Sum` is the MD5 of the bytes stored at the record's `Path`, and those stored
bytes are the uploaded body. -/
theorem success_digest_matches_stored_bytes (m : DocMetadata) (env : Env) (cl : Cleanup)
    (body : Bytes) (w : World) (h : (CreateFileAndUpload m env cl body w).err = none) :
    ∃ doc attrs stored,
      (CreateFileAndUpload m env cl body w).doc = some doc ∧
      doc.Attrs = some attrs ∧
      fsLookup (CreateFileAndUpload m env cl body w).world.fs doc.Path = some stored ∧
      attrs.MD5Sum = md5Sum stored ∧
      stored = body := by
  by_cases hk : m.Type_ = FileDocType
  · cases hp : env.newFilePath with
    | error e => simp [CreateFileAndUpload, createNewFilePath, hk, hp] at h
    | ok pth =>
      cases hc : env.fsCreate with
      | some e =>
        simp [CreateFileAndUpload, createNewFilePath, copyOnFsAndCheckIntegrity, hk, hp, hc] at h
      | none =>
        cases hcp : env.ioCopy with
        | some ne =>
          simp [CreateFileAndUpload, createNewFilePath, copyOnFsAndCheckIntegrity, hk, hp, hc,
            hcp] at h
        | none =>
          by_cases he : m.GivenMD5 = md5Sum body
          · cases hd : env.couchCreateDoc with
            | error e =>
              rw [createDoc_failure_outcome m env cl body w pth e hk hp hc hcp he hd] at h
              simp at h
            | ok ir =>
              obtain ⟨id, rev⟩ := ir
              rw [success_outcome m env cl body w pth id rev hk hp hc hcp he hd]
              exact ⟨_, _, body, rfl, rfl, fsLookup_fsWrite _ _ _, he, rfl⟩
          · simp [CreateFileAndUpload, createNewFilePath, copyOnFsAndCheckIntegrity, hk, hp, hc,
              hcp, he] at h
  · simp [CreateFileAndUpload, hk] at h

/-- A successful upload of `hello` declaring its MD5. -/
theorem success_digest_matches_stored_bytes_witness :
    ∃ doc attrs stored,
      (CreateFileAndUpload (fileRequest "a.txt" helloMD5) (allSucceed "/a.txt") cleanupOk
        helloBody emptyWorld).doc = some doc ∧
      doc.Attrs = some attrs ∧
      fsLookup (CreateFileAndUpload (fileRequest "a.txt" helloMD5) (allSucceed "/a.txt")
        cleanupOk helloBody emptyWorld).world.fs doc.Path = some stored ∧
      attrs.MD5Sum = md5Sum stored ∧
      stored = helloBody :=
  success_digest_matches_stored_bytes (fileRequest "a.txt" helloMD5) (allSucceed "/a.txt")
    cleanupOk helloBody emptyWorld
    (by rw [success_outcome (fileRequest "a.txt" helloMD5) (allSucceed "/a.txt") cleanupOk
      helloBody emptyWorld "/a.txt" "files/id1" "1-a" rfl rfl rfl rfl md5Sum_helloBody.symm rfl])

/-- C5 at the failing input: the body `hello` is written and its digest matches, then
`CreateDoc` fails with a `*couchdb.Error`.  The call returns that error, but the deferred
function only calls `DeleteDoc`: `fs.Remove` is never called and the object `hello` is
still at the allocated path. -/
theorem couch_error_leaves_object :
    (CreateFileAndUpload (fileRequest "a.txt" helloMD5) (couchFailure "/a.txt") cleanupOk
      helloBody emptyWorld).err = some (Error.couch "conflict") ∧
    fsLookup (CreateFileAndUpload (fileRequest "a.txt" helloMD5) (couchFailure "/a.txt")
      cleanupOk helloBody emptyWorld).world.fs "/a.txt" = some helloBody ∧
    (CreateFileAndUpload (fileRequest "a.txt" helloMD5) (couchFailure "/a.txt") cleanupOk
      helloBody emptyWorld).world.calls.any Call.isFsRemove = false := by
  rw [createDoc_failure_outcome (fileRequest "a.txt" helloMD5) (couchFailure "/a.txt")
    cleanupOk helloBody emptyWorld "/a.txt" (Error.couch "conflict") rfl rfl rfl rfl
    md5Sum_helloBody.symm rfl]
  refine ⟨rfl, ?_, ?_⟩
  · simp [rollbackOnError, Error.isCouchErr, DeleteDoc, World.record, cleanupOk, emptyWorld,
      fsLookup_fsWrite]
  · simp [rollbackOnError, Error.isCouchErr, DeleteDoc, World.record, cleanupOk, emptyWorld,
      Call.isFsRemove]

/-- C6 at the failing input: the allocated path already holds `old`.  When `fs.Create`
refuses it, the call returns the conflict error and the deferred function then removes
the object that was there before; when `fs.Create` accepts it, the object is
overwritten with the body. -/
theorem existing_object_not_preserved :
    fsLookup (occupiedWorld "/a.txt").fs "/a.txt" = some [111, 108, 100] ∧
    (CreateFileAndUpload (fileRequest "a.txt" helloMD5) (createConflict "/a.txt") cleanupOk
      helloBody (occupiedWorld "/a.txt")).err = some (Error.other "file already exists") ∧
    fsLookup (CreateFileAndUpload (fileRequest "a.txt" helloMD5) (createConflict "/a.txt")
      cleanupOk helloBody (occupiedWorld "/a.txt")).world.fs "/a.txt" = none ∧
    (CreateFileAndUpload (fileRequest "a.txt" helloMD5) (createConflict "/a.txt") cleanupOk
      helloBody (occupiedWorld "/a.txt")).world.calls =
        [Call.createNewFilePath, Call.fsCreate "/a.txt", Call.fsRemove "/a.txt"] ∧
    (CreateFileAndUpload (fileRequest "a.txt" helloMD5) (allSucceed "/a.txt") cleanupOk
      helloBody (occupiedWorld "/a.txt")).err = none ∧
    fsLookup (CreateFileAndUpload (fileRequest "a.txt" helloMD5) (allSucceed "/a.txt")
      cleanupOk helloBody (occupiedWorld "/a.txt")).world.fs "/a.txt" = some helloBody := by
  rw [success_outcome (fileRequest "a.txt" helloMD5) (allSucceed "/a.txt") cleanupOk
    helloBody (occupiedWorld "/a.txt") "/a.txt" "files/id1" "1-a" rfl rfl rfl rfl
    md5Sum_helloBody.symm rfl]
  refine ⟨by decide, ?_, ?_, ?_, rfl, fsLookup_fsWrite _ _ _⟩
  · simp [CreateFileAndUpload, createNewFilePath, copyOnFsAndCheckIntegrity, createConflict,
      fileRequest]
  · simp [CreateFileAndUpload, createNewFilePath, copyOnFsAndCheckIntegrity, createConflict,
      fileRequest, rollbackOnError, Error.isCouchErr, fsRemove, cleanupOk, World.record,
      fsLookup_fsErase]
  · simp [CreateFileAndUpload, createNewFilePath, copyOnFsAndCheckIntegrity, createConflict,
      fileRequest, rollbackOnError, Error.isCouchErr, fsRemove, cleanupOk, World.record,
      occupiedWorld]

/-- C7: the error `CreateFileAndUpload` returns is the error of the first step that
fails (validation, path allocation, content write, digest check, document create), and
neither it nor the returned record depends on what `fs.Remove` and `couchdb.DeleteDoc`
answer during the rollback. -/
theorem error_is_first_failure (m : DocMetadata) (env : Env) (cl cl2 : Cleanup)
    (body : Bytes) (w : World) :
    (CreateFileAndUpload m env cl body w).err = firstFailure m env body ∧
    (CreateFileAndUpload m env cl2 body w).err = (CreateFileAndUpload m env cl body w).err ∧
    (CreateFileAndUpload m env cl2 body w).doc = (CreateFileAndUpload m env cl body w).doc := by
  by_cases hk : m.Type_ = FileDocType
  · cases hp : env.newFilePath with
    | error e => simp [CreateFileAndUpload, firstFailure, createNewFilePath, hk, hp]
    | ok pth =>
      cases hc : env.fsCreate with
      | some e =>
        simp [CreateFileAndUpload, firstFailure, createNewFilePath, copyOnFsAndCheckIntegrity,
          hk, hp, hc]
      | none =>
        cases hcp : env.ioCopy with
        | some ne =>
          simp [CreateFileAndUpload, firstFailure, createNewFilePath,
            copyOnFsAndCheckIntegrity, hk, hp, hc, hcp]
        | none =>
          by_cases he : m.GivenMD5 = md5Sum body
          · cases hd : env.couchCreateDoc with
            | error e =>
              simp [CreateFileAndUpload, firstFailure, createNewFilePath,
                copyOnFsAndCheckIntegrity, CreateDoc, hk, hp, hc, hcp, hd, ← he]
            | ok ir =>
              simp [CreateFileAndUpload, firstFailure, createNewFilePath,
                copyOnFsAndCheckIntegrity, CreateDoc, hk, hp, hc, hcp, hd, ← he]
          · simp [CreateFileAndUpload, firstFailure, createNewFilePath,
              copyOnFsAndCheckIntegrity, hk, hp, hc, hcp, he]
  · simp [CreateFileAndUpload, firstFailure, hk]

/-- C8, as stated, fails when `CreateDoc` returns an error that is not a
`*couchdb.Error`: the deferred function takes the `else` branch, calls `fs.Remove` and
never calls `DeleteDoc`, so the document record is not deleted. -/
theorem other_error_skips_deleteDoc :
    (CreateFileAndUpload (fileRequest "a.txt" helloMD5) (otherCreateDocFailure "/a.txt")
      cleanupOk helloBody emptyWorld).err = some (Error.other "connection refused") ∧
    (CreateFileAndUpload (fileRequest "a.txt" helloMD5) (otherCreateDocFailure "/a.txt")
      cleanupOk helloBody emptyWorld).world.calls.any Call.isDeleteDoc = false ∧
    (CreateFileAndUpload (fileRequest "a.txt" helloMD5) (otherCreateDocFailure "/a.txt")
      cleanupOk helloBody emptyWorld).world.calls.any Call.isFsRemove = true := by
  rw [createDoc_failure_outcome (fileRequest "a.txt" helloMD5) (otherCreateDocFailure "/a.txt")
    cleanupOk helloBody emptyWorld "/a.txt" (Error.other "connection refused") rfl rfl rfl rfl
    md5Sum_helloBody.symm rfl]
  refine ⟨rfl, ?_, ?_⟩
  · simp [rollbackOnError, Error.isCouchErr, fsRemove, World.record, cleanupOk, emptyWorld,
      Call.isDeleteDoc]
  · simp [rollbackOnError, Error.isCouchErr, fsRemove, World.record, cleanupOk, emptyWorld,
      Call.isFsRemove]

/-- C8, amended: when `CreateDoc` is the first step to fail, the rollback branches on
the error kind.  For a `*couchdb.Error` it calls `DeleteDoc` on the record, as the last
call.  For any other error it calls `fs.Remove` on the allocated path, as the last call,
makes no `DeleteDoc` call, and when `fs.Remove` succeeds no object is left at the
allocated path. -/
theorem rollback_branches_on_error_kind (m : DocMetadata) (env : Env) (cl : Cleanup)
    (body : Bytes) (w : World) (pth : String) (e : Error) (hk : m.Type_ = FileDocType)
    (hp : env.newFilePath = .ok pth) (hc : env.fsCreate = none) (hcp : env.ioCopy = none)
    (he : m.GivenMD5 = md5Sum body) (hd : env.couchCreateDoc = .error e) :
    (e.isCouchErr = true →
      (CreateFileAndUpload m env cl body w).world.calls.getLast? =
        some (Call.deleteDoc (builtDoc m env pth))) ∧
    (e.isCouchErr = false →
      (CreateFileAndUpload m env cl body w).world.calls.getLast? = some (Call.fsRemove pth) ∧
      (CreateFileAndUpload m env cl body w).world.calls.any Call.isDeleteDoc =
        w.calls.any Call.isDeleteDoc ∧
      (cl.fsRemove = none →
        fsLookup (CreateFileAndUpload m env cl body w).world.fs pth = none)) := by
  rw [createDoc_failure_outcome m env cl body w pth e hk hp hc hcp he hd]
  constructor
  · intro hcouch
    cases hdel : cl.couchDeleteDoc <;>
      simp [rollbackOnError, hcouch, DeleteDoc, World.record, hdel]
  · intro hother
    refine ⟨?_, ?_, ?_⟩
    · cases hrem : cl.fsRemove <;>
        simp [rollbackOnError, hother, fsRemove, World.record, hrem]
    · cases hrem : cl.fsRemove <;>
        simp [rollbackOnError, hother, fsRemove, World.record, hrem, Call.isDeleteDoc]
    · intro hrem
      simp [rollbackOnError, hother, fsRemove, World.record, hrem, fsLookup_fsErase]

/-- The amended C8 on a `*couchdb.Error` whose `DeleteDoc` fails too, and on another
error whose `fs.Remove` succeeds. -/
theorem rollback_branches_on_error_kind_witness :
    (CreateFileAndUpload (fileRequest "a.txt" helloMD5) (couchFailure "/a.txt") cleanupFails
      helloBody emptyWorld).world.calls.getLast? =
        some (Call.deleteDoc (builtDoc (fileRequest "a.txt" helloMD5) (couchFailure "/a.txt")
          "/a.txt")) ∧
    fsLookup (CreateFileAndUpload (fileRequest "a.txt" helloMD5)
      (otherCreateDocFailure "/a.txt") cleanupOk helloBody emptyWorld).world.fs "/a.txt" =
        none :=
  ⟨(rollback_branches_on_error_kind (fileRequest "a.txt" helloMD5) (couchFailure "/a.txt")
      cleanupFails helloBody emptyWorld "/a.txt" (Error.couch "conflict") rfl rfl rfl rfl
      md5Sum_helloBody.symm rfl).1 rfl,
   ((rollback_branches_on_error_kind (fileRequest "a.txt" helloMD5)
      (otherCreateDocFailure "/a.txt") cleanupOk helloBody emptyWorld "/a.txt"
      (Error.other "connection refused") rfl rfl rfl rfl md5Sum_helloBody.symm rfl).2
      rfl).2.2 rfl⟩

/-- C9 at the failing input: the upload of the five bytes `hello` declaring their MD5
succeeds and five bytes are stored at the allocated path, yet the `Size` of the returned
record and of the persisted record is 0. -/
theorem size_attribute_stays_zero :
    (CreateFileAndUpload (fileRequest "a.txt" helloMD5) (allSucceed "/a.txt") cleanupOk
      helloBody emptyWorld).err = none ∧
    (fsLookup (CreateFileAndUpload (fileRequest "a.txt" helloMD5) (allSucceed "/a.txt")
      cleanupOk helloBody emptyWorld).world.fs "/a.txt").map List.length = some 5 ∧
    ((CreateFileAndUpload (fileRequest "a.txt" helloMD5) (allSucceed "/a.txt") cleanupOk
      helloBody emptyWorld).doc.bind (fun d => d.Attrs)).map (fun a => a.Size) = some 0 ∧
    (CreateFileAndUpload (fileRequest "a.txt" helloMD5) (allSucceed "/a.txt") cleanupOk
      helloBody emptyWorld).world.db.map (fun d => d.Attrs.map (fun a => a.Size)) =
        [some 0] := by
  rw [success_outcome (fileRequest "a.txt" helloMD5) (allSucceed "/a.txt") cleanupOk
    helloBody emptyWorld "/a.txt" "files/id1" "1-a" rfl rfl rfl rfl md5Sum_helloBody.symm rfl]
  refine ⟨rfl, ?_, rfl, rfl⟩
  simp [fsLookup_fsWrite, helloBody]

/-! ## Properties of `ToJSONApi` -/

theorem indexFrom_slash_absent (s : List Char) (k : Nat) (h : '/' ∉ s) :
    indexFrom ['/'] s k = -1 := by
  induction s generalizing k with
  | nil => simp [indexFrom]
  | cons c cs ih =>
    simp only [List.mem_cons, not_or] at h
    have hc : ¬ ('/' = c) := h.1
    simp [indexFrom, hc, ih (k + 1) h.2]

theorem indexFrom_slash_present (pre post : List Char) (k : Nat) (h : '/' ∉ pre) :
    indexFrom ['/'] (pre ++ '/' :: post) k = ((k + pre.length : Nat) : Int) := by
  induction pre generalizing k with
  | nil => simp [indexFrom]
  | cons c cs ih =>
    simp only [List.mem_cons, not_or] at h
    have hc : ¬ ('/' = c) := h.1
    have := ih (k + 1) h.2
    simp [indexFrom, hc, this]
    omega

/-- C10: `ToJSONApi` never fails on the slice expression.  The serialised `id` is what
follows the first `/` of `QID` when there is one and the whole `QID` (the empty string
included) when there is none; `rev` is `FRev`, `type` is the file document type and
`attributes` is `Attrs`. -/
theorem ToJSONApi_id_after_first_slash (f : FileDoc) :
    ∃ out, f.ToJSONApi = some out ∧
      out.rev = f.FRev ∧ out.type = FileDocType ∧ out.attributes = f.Attrs ∧
      ('/' ∈ f.QID.data → ∃ pre post,
        f.QID.data = pre ++ '/' :: post ∧ '/' ∉ pre ∧ out.id.data = post) ∧
      ('/' ∉ f.QID.data → out.id = f.QID) := by
  by_cases hs : '/' ∈ f.QID.data
  · obtain ⟨pre, post, hsplit, hpre⟩ := List.eq_append_cons_of_mem hs
    have hi : stringsIndex f.QID "/" = (pre.length : Int) := by
      have := indexFrom_slash_present pre post 0 hpre
      simp [stringsIndex, hsplit, this]
    have hlen : f.QID.data.length = pre.length + 1 + post.length := by
      rw [hsplit]; simp; omega
    have hdrop : f.QID.data.drop (pre.length + 1) = post := by
      rw [hsplit]; simp
    refine ⟨⟨String.mk post, FileDocType, f.FRev, f.Attrs⟩, ?_, rfl, rfl, rfl,
      fun _ => ⟨pre, post, hsplit, hpre, rfl⟩, fun h => absurd hs h⟩
    have hbound : (0 : Int) ≤ (pre.length : Int) + 1 ∧
        (pre.length : Int) + 1 ≤ (f.QID.data.length : Int) := by
      rw [hlen]; constructor <;> push_cast <;> omega
    have htoNat : ((pre.length : Int) + 1).toNat = pre.length + 1 := by omega
    simp only [FileDoc.ToJSONApi, hi, sliceFrom, hbound, and_self, if_true, htoNat, hdrop,
      FileDoc.DocType, FileDoc.Rev]
  · have hi : stringsIndex f.QID "/" = -1 := by
      simp [stringsIndex, indexFrom_slash_absent _ 0 hs]
    refine ⟨⟨f.QID, FileDocType, f.FRev, f.Attrs⟩, ?_, rfl, rfl, rfl,
      fun h => absurd h hs, fun _ => rfl⟩
    simp [FileDoc.ToJSONApi, hi, sliceFrom, FileDoc.DocType, FileDoc.Rev]

end Files
